import Mathlib

/-!
Shallow embedding of the ward-management core of this repository:
the date/stay classifier (`src/utils/reportExport.ts`), the active-roster
aggregator and discharge workflow (`src/stores/useDischargeStore.ts`,
`src/components/Discharge/DischargeForm.tsx`), and the patient aggregator
(`src/stores/usePatientStore.ts`).

Modelling conventions:
* Timestamps are modelled as integer milliseconds (UTC); `new Date(s).getTime()`
  on a date string is modelled by an explicit `parseTime : String → Int`
  parameter where the source parses strings.
* JavaScript `x || y` on strings (falsy = empty string, `undefined`/`null`)
  is modelled by the explicit helpers `jsOrStr` / `jsOrOpt`.
* Backend writes "each returning the written row or a backend error" are
  modelled by boolean failure flags; a failed call leaves the table unchanged.
* JavaScript array `sort` with comparator `(a, b) => tb - ta` is a stable
  sort by a total preorder; its (unique) result is modelled by
  `List.insertionSort`, which is stable.
-/

namespace IMD

/-! ## Date/Stay Classifier — `src/src/utils/reportExport.ts` -/

/-- Milliseconds in a day. -/
def msPerDay : Int := 86400000

/-- date-fns `differenceInDays(dateLeft, dateRight)`: the number of whole
day periods between the two instants, fractional days truncated toward zero
(modelled over UTC millisecond timestamps). -/
def differenceInDays (dateLeft dateRight : Int) : Int :=
  Int.tdiv (dateLeft - dateRight) msPerDay

/-- Constant `LONG_STAY_THRESHOLD` from `reportExport.ts`. -/
def LONG_STAY_THRESHOLD : Int := 6

/-- Function `calculateStayDuration(admissionDate)`: `differenceInDays(now, admissionDate)`;
the current time is made an explicit argument. -/
def calculateStayDuration (admissionDate now : Int) : Int :=
  differenceInDays now admissionDate

/-- Function `isLongStay(admissionDate)`: stay duration at least `LONG_STAY_THRESHOLD`. -/
def isLongStay (admissionDate now : Int) : Bool :=
  LONG_STAY_THRESHOLD ≤ calculateStayDuration admissionDate now

/-! ## JavaScript truthiness helpers -/

/-- JavaScript `x || d` where `x` is a possibly-missing string and `d` a
string default: a missing or empty string falls through to the default. -/
def jsOrStr (x : Option String) (d : String) : String :=
  match x with
  | some s => if s = "" then d else s
  | none => d

/-- JavaScript `x || y` where both sides are possibly-missing strings. -/
def jsOrOpt (x y : Option String) : Option String :=
  match x with
  | some s => if s = "" then y else some s
  | none => y

/-! ## Shared row fragments -/

/-- A `users` row as selected by the stores (id, name, medical_code, role,
department). -/
structure Doctor where
  id : Nat
  name : String
  medical_code : String
  role : String
  department : String
deriving DecidableEq, Repr

/-- The nested `patient` fragment selected by the discharge store
(mrn, name). -/
structure PatientBrief where
  mrn : String
  name : String
deriving DecidableEq, Repr

/-- The authenticated user (id, name) from the identity provider. -/
structure User where
  id : Nat
  name : String
deriving DecidableEq, Repr

end IMD

namespace IMD.DischargeStore

/-! ## Active-roster aggregator and discharge workflow —
`src/src/stores/useDischargeStore.ts` -/

/-- An `admissions` row in the shape selected by `fetchActivePatients`
(plus the columns written by `processDischarge`).  The nested `patient` and
`admitting_doctor` joins arrive as arrays; the source reads index 0. -/
structure AdmissionRow where
  id : Nat
  patient_id : Nat
  admission_date : String
  department : String
  diagnosis : String
  status : String
  admitting_doctor_id : Nat
  shift_type : String
  is_weekend : Bool
  patient : List IMD.PatientBrief
  admitting_doctor : List IMD.Doctor
  discharge_date : Option String
  discharge_type : Option String
  follow_up_required : Bool
  follow_up_date : Option String
  discharge_note : Option String
  discharge_doctor_id : Option Nat
deriving DecidableEq, Repr

/-- A `consultations` row in the shape selected by `fetchActivePatients`,
plus the columns written by the completion branch of `processDischarge`. -/
structure ConsultationRow where
  id : Nat
  patient_id : Nat
  mrn : String
  patient_name : String
  created_at : String
  consultation_specialty : String
  reason : String
  doctor_id : Option Nat
  doctor_name : Option String
  status : String
  completion_note : Option String
  completed_by : Option Nat
  completed_at : Option String
deriving DecidableEq, Repr

/-- A medical-note row as inserted through the notes store. -/
structure NoteRow where
  patient_id : Nat
  doctor_id : Nat
  note_type : String
  content : String
deriving DecidableEq, Repr

/-- The `ActivePatient` view-model shape of `useDischargeStore.ts`.
`isConsultation` is optional in the source (absent = falsy); it is modelled
as a `Bool` that the admission mapping leaves `false`. -/
structure ActivePatient where
  id : Nat
  patient_id : Nat
  mrn : String
  name : String
  admission_date : String
  department : String
  doctor_name : String
  diagnosis : String
  status : String
  admitting_doctor_id : Nat
  shift_type : String
  is_weekend : Bool
  isConsultation : Bool
  consultation_id : Option Nat
deriving DecidableEq, Repr

/-- The backend tables touched by this store. -/
structure DB where
  admissions : List AdmissionRow
  consultations : List ConsultationRow
  notes : List NoteRow
deriving DecidableEq, Repr

/-- The admission-to-roster mapping of `fetchActivePatients`
(lines 93–106 of `useDischargeStore.ts`). -/
def admissionToActive (a : AdmissionRow) : ActivePatient :=
  { id := a.id
    patient_id := a.patient_id
    mrn := IMD.jsOrStr (a.patient.head?.map (·.mrn)) ""
    name := IMD.jsOrStr (a.patient.head?.map (·.name)) ""
    admission_date := a.admission_date
    department := a.department
    doctor_name := IMD.jsOrStr (a.admitting_doctor.head?.map (·.name)) "Not assigned"
    diagnosis := a.diagnosis
    status := a.status
    admitting_doctor_id := a.admitting_doctor_id
    shift_type := a.shift_type
    is_weekend := a.is_weekend
    isConsultation := false
    consultation_id := none }

/-- The consultation-to-roster mapping of `fetchActivePatients`
(lines 109–124 of `useDischargeStore.ts`): `status` is pinned to `active`,
`shift_type` defaults to `morning`, `is_weekend` to `false`,
`doctor_id || 0`, `doctor_name || 'Pending Assignment'`. -/
def consultationToActive (c : ConsultationRow) : ActivePatient :=
  { id := c.id
    patient_id := c.patient_id
    mrn := c.mrn
    name := c.patient_name
    admission_date := c.created_at
    department := c.consultation_specialty
    doctor_name := IMD.jsOrStr c.doctor_name "Pending Assignment"
    diagnosis := c.reason
    status := "active"
    admitting_doctor_id := c.doctor_id.getD 0
    shift_type := "morning"
    is_weekend := false
    isConsultation := true
    consultation_id := some c.id }

/-- The roster built by a successful `fetchActivePatients`: active admissions
mapped, then active consultations mapped, concatenated in that order. -/
def rosterOf (db : DB) : List ActivePatient :=
  (db.admissions.filter (fun a => a.status == "active")).map admissionToActive
    ++ (db.consultations.filter (fun c => c.status == "active")).map consultationToActive

/-- The mutable fields of the discharge store. -/
structure StoreState where
  activePatients : List ActivePatient
  loading : Bool
  error : Option String
  selectedPatient : Option ActivePatient
deriving DecidableEq, Repr

/-- Failure injection for the two roster reads (each supabase call either
returns rows or an error). -/
structure FetchFlags where
  admissionsFail : Bool
  consultationsFail : Bool
deriving DecidableEq, Repr

/-- Action `fetchActivePatients` of `useDischargeStore.ts` (lines 41–146): read both
tables, map and concatenate, reconcile the selected patient by id (clearing
it when absent, replacing it by the freshly built entry when present), then
store the roster.  A read error stores the message and stops. -/
def fetchActivePatients (f : FetchFlags) (db : DB) (s : StoreState) : StoreState :=
  let s0 : StoreState := { s with loading := true, error := none }
  if f.admissionsFail then
    { s0 with error := some "admissions fetch failed", loading := false }
  else if f.consultationsFail then
    { s0 with error := some "consultations fetch failed", loading := false }
  else
    let allPatients := rosterOf db
    let s1 : StoreState :=
      match s0.selectedPatient with
      | none => s0
      | some sel =>
        match allPatients.find? (fun p => p.id == sel.id) with
        | none => { s0 with selectedPatient := none }
        | some updatedPatient => { s0 with selectedPatient := some updatedPatient }
    { s1 with activePatients := allPatients, loading := false }

/-! ### Discharge workflow -/

/-- The `DischargeData` payload handed to `processDischarge`
(`src/src/types/discharge.ts` shape as used by the form). -/
structure DischargeData where
  discharge_date : String
  discharge_type : String
  follow_up_required : Bool
  follow_up_date : Option String
  discharge_note : String
  status : String
deriving DecidableEq, Repr

/-- The discharge form's local state (`FormData` in `DischargeForm.tsx`). -/
structure FormData where
  discharge_date : String
  discharge_type : String
  follow_up_required : Bool
  follow_up_date : String
  discharge_note : String
deriving DecidableEq, Repr

/-- The payload built by `handleSubmit` in `DischargeForm.tsx`
(lines 104–111): spread of the form data, with `follow_up_date` kept only
when follow-up is required, and `status` pinned to `discharged`. -/
def mkDischargeData (fd : FormData) : DischargeData :=
  { discharge_date := fd.discharge_date
    discharge_type := fd.discharge_type
    follow_up_required := fd.follow_up_required
    follow_up_date := if fd.follow_up_required then some fd.follow_up_date else none
    discharge_note := fd.discharge_note
    status := "discharged" }

/-- The column set written to `admissions` by the discharge branch of
`processDischarge` (lines 184–195 of `useDischargeStore.ts`). -/
structure AdmissionUpdate where
  status : String
  discharge_date : String
  discharge_type : String
  follow_up_required : Bool
  follow_up_date : Option String
  discharge_note : String
  discharge_doctor_id : Nat
deriving DecidableEq, Repr

/-- The column set written to `consultations` by the completion branch of
`processDischarge` (lines 163–171 of `useDischargeStore.ts`). -/
structure ConsultationUpdate where
  status : String
  completion_note : String
  completed_by : Nat
  completed_at : String
deriving DecidableEq, Repr

/-- A successfully applied backend write. -/
inductive WriteOp where
  | updateAdmission (id : Nat) (u : AdmissionUpdate)
  | updateConsultation (id : Option Nat) (u : ConsultationUpdate)
  | insertNote (n : NoteRow)
deriving DecidableEq, Repr

/-- Apply an `admissions` update filtered by `.eq('id', id)`. -/
def applyAdmissionUpdate (db : DB) (id : Nat) (u : AdmissionUpdate) : DB :=
  { db with
    admissions := db.admissions.map (fun a =>
      if a.id = id then
        { a with
          status := u.status
          discharge_date := some u.discharge_date
          discharge_type := some u.discharge_type
          follow_up_required := u.follow_up_required
          follow_up_date := u.follow_up_date
          discharge_note := some u.discharge_note
          discharge_doctor_id := some u.discharge_doctor_id }
      else a) }

/-- Apply a `consultations` update filtered by
`.eq('id', selectedPatient.consultation_id)` (the target is the selected
entry's optional `consultation_id`). -/
def applyConsultationUpdate (db : DB) (id : Option Nat) (u : ConsultationUpdate) : DB :=
  { db with
    consultations := db.consultations.map (fun c =>
      if some c.id = id then
        { c with
          status := u.status
          completion_note := some u.completion_note
          completed_by := some u.completed_by
          completed_at := some u.completed_at }
      else c) }

/-- Modelled from the spec: `useMedicalNotesStore.addNote` is not among the
source files; per the collaborator contract it is "insert note … returning
the written row or a backend error", so it appends the row to the notes
table, and a failure propagates to the caller. -/
def addNote (db : DB) (n : NoteRow) : DB :=
  { db with notes := db.notes ++ [n] }

/-- Failure injection for the writes issued by `processDischarge`. -/
structure WriteFlags where
  updateFails : Bool
  noteFails : Bool
  fetch : FetchFlags
deriving DecidableEq, Repr

/-- The observable outcome of a `processDischarge` run: the backend state,
the store state, the successfully applied writes in order, and whether the
promise rejected (the source re-throws from its catch block). -/
structure Result where
  db : DB
  state : StoreState
  writes : List WriteOp
  thrown : Bool
deriving DecidableEq, Repr

/-- Action `processDischarge` of `useDischargeStore.ts` (lines 152–220): precondition
checks (selected entry, authenticated user), then either the consultation
completion or the admission discharge (status update then note append, both
fallible), then an unconditional roster re-fetch and selection clear.  Any
thrown error is caught: the message is stored, loading cleared, and the
error re-thrown.  `now` stands for `new Date().toISOString()`. -/
def processDischarge (w : WriteFlags) (currentUser : Option IMD.User) (now : String)
    (data : DischargeData) (db : DB) (s : StoreState) : Result :=
  let s0 : StoreState := { s with loading := true, error := none }
  match s0.selectedPatient with
  | none =>
    ⟨db, { s0 with error := some "No patient selected", loading := false }, [], true⟩
  | some selectedPatient =>
    match currentUser with
    | none =>
      ⟨db, { s0 with error := some "No user logged in", loading := false }, [], true⟩
    | some currentUser =>
      if selectedPatient.isConsultation then
        if w.updateFails then
          ⟨db, { s0 with error := some "consultation update failed", loading := false },
            [], true⟩
        else
          let u : ConsultationUpdate :=
            { status := "completed"
              completion_note := data.discharge_note
              completed_by := currentUser.id
              completed_at := now }
          let db1 := applyConsultationUpdate db selectedPatient.consultation_id u
          let op1 := WriteOp.updateConsultation selectedPatient.consultation_id u
          if w.noteFails then
            ⟨db1, { s0 with error := some "note insert failed", loading := false },
              [op1], true⟩
          else
            let n : NoteRow :=
              { patient_id := selectedPatient.patient_id
                doctor_id := currentUser.id
                note_type := "Consultation Note"
                content := data.discharge_note }
            let db2 := addNote db1 n
            let s1 := fetchActivePatients w.fetch db2 s0
            ⟨db2, { s1 with selectedPatient := none, loading := false },
              [op1, WriteOp.insertNote n], false⟩
      else
        if w.updateFails then
          ⟨db, { s0 with error := some "admission update failed", loading := false },
            [], true⟩
        else
          let u : AdmissionUpdate :=
            { status := "discharged"
              discharge_date := data.discharge_date
              discharge_type := data.discharge_type
              follow_up_required := data.follow_up_required
              follow_up_date := IMD.jsOrOpt data.follow_up_date none
              discharge_note := data.discharge_note
              discharge_doctor_id := currentUser.id }
          let db1 := applyAdmissionUpdate db selectedPatient.id u
          let op1 := WriteOp.updateAdmission selectedPatient.id u
          if w.noteFails then
            ⟨db1, { s0 with error := some "note insert failed", loading := false },
              [op1], true⟩
          else
            let n : NoteRow :=
              { patient_id := selectedPatient.patient_id
                doctor_id := currentUser.id
                note_type := "Discharge Summary"
                content := data.discharge_note }
            let db2 := addNote db1 n
            let s1 := fetchActivePatients w.fetch db2 s0
            ⟨db2, { s1 with selectedPatient := none, loading := false },
              [op1, WriteOp.insertNote n], false⟩

end IMD.DischargeStore

namespace IMD.PatientStore

/-! ## Patient aggregator — `src/src/stores/usePatientStore.ts` -/

/-- An `admissions` row in the nested shape selected by `fetchPatients`.
The doctor joins arrive as arrays; the aggregation reads index 0. -/
structure AdmissionRow where
  id : Nat
  patient_id : Nat
  admitting_doctor_id : Nat
  admission_date : String
  discharge_date : Option String
  department : String
  diagnosis : String
  status : String
  visit_number : Nat
  safety_type : Option String
  shift_type : String
  is_weekend : Bool
  admitting_doctor : List IMD.Doctor
  discharge_doctor : List IMD.Doctor
deriving DecidableEq, Repr

/-- A `patients` row with its nested admissions, as returned by the query. -/
structure PatientRow where
  id : Nat
  mrn : String
  name : String
  date_of_birth : String
  gender : String
  admissions : List AdmissionRow
deriving DecidableEq, Repr

/-- An aggregated admission (the inner `.map` body of `fetchPatients`,
lines 88–103): same columns, doctor arrays collapsed to their head. -/
structure AggAdmission where
  id : Nat
  patient_id : Nat
  admitting_doctor_id : Nat
  admission_date : String
  discharge_date : Option String
  department : String
  diagnosis : String
  status : String
  visit_number : Nat
  safety_type : Option String
  shift_type : String
  is_weekend : Bool
  admitting_doctor : Option IMD.Doctor
  discharge_doctor : Option IMD.Doctor
deriving DecidableEq, Repr

/-- The denormalized patient view model built by `fetchPatients`
(lines 108–119).  The convenience fields are `Option`s because in the
source they are `undefined` when the patient has no admissions. -/
structure AggPatient where
  id : Nat
  mrn : String
  name : String
  date_of_birth : String
  gender : String
  admissions : List AggAdmission
  department : Option String
  diagnosis : Option String
  admission_date : Option String
  doctor_name : Option String
deriving DecidableEq, Repr

/-- Collapse the joined doctor arrays (`admission.admitting_doctor?.[0]`). -/
def aggregateAdmission (a : AdmissionRow) : AggAdmission :=
  { id := a.id
    patient_id := a.patient_id
    admitting_doctor_id := a.admitting_doctor_id
    admission_date := a.admission_date
    discharge_date := a.discharge_date
    department := a.department
    diagnosis := a.diagnosis
    status := a.status
    visit_number := a.visit_number
    safety_type := a.safety_type
    shift_type := a.shift_type
    is_weekend := a.is_weekend
    admitting_doctor := a.admitting_doctor.head?
    discharge_doctor := a.discharge_doctor.head? }

/-- The admission ordering used by `fetchPatients`:
`.sort((a, b) => new Date(b.admission_date).getTime() - new Date(a.admission_date).getTime())`,
a stable sort placing more recent admission dates first, modelled by a stable
insertion sort under `parseTime b ≤ parseTime a`. -/
def sortAdmissionsDesc (parseTime : String → Int) (l : List AdmissionRow) :
    List AdmissionRow :=
  List.insertionSort
    (fun a b => parseTime b.admission_date ≤ parseTime a.admission_date) l

/-- The per-patient aggregation body of `fetchPatients` (lines 85–120):
sort admissions by date descending, collapse doctor joins, derive the
convenience fields from the first active admission with JavaScript `||`
fallback to the latest admission (index 0). -/
def aggregatePatient (parseTime : String → Int) (p : PatientRow) : AggPatient :=
  let admissions := (sortAdmissionsDesc parseTime p.admissions).map aggregateAdmission
  let activeAdmission := admissions.find? (fun a => a.status == "active")
  let latestAdmission := admissions.head?
  { id := p.id
    mrn := p.mrn
    name := p.name
    date_of_birth := p.date_of_birth
    gender := p.gender
    admissions := admissions
    department :=
      IMD.jsOrOpt (activeAdmission.map (·.department)) (latestAdmission.map (·.department))
    diagnosis :=
      IMD.jsOrOpt (activeAdmission.map (·.diagnosis)) (latestAdmission.map (·.diagnosis))
    admission_date :=
      IMD.jsOrOpt (activeAdmission.map (·.admission_date))
        (latestAdmission.map (·.admission_date))
    doctor_name :=
      IMD.jsOrOpt ((activeAdmission.bind (·.admitting_doctor)).map (·.name))
        ((latestAdmission.bind (·.admitting_doctor)).map (·.name)) }

/-- The trailing-window cutoff: `cutoffTime.setHours(getHours() - 18)`,
i.e. 18 hours before the query time. -/
def cutoff (now : Int) : Int := now - 18 * 3600000

/-- The per-admission predicate of the default fetch filter:
`status.eq.active` or (`status.eq.discharged` and
`discharge_date.gte.cutoff`); a null `discharge_date` does not satisfy the
comparison. -/
def keepAdmission (parseTime : String → Int) (now : Int) (a : AdmissionRow) : Bool :=
  a.status == "active"
    || (a.status == "discharged"
        && match a.discharge_date with
           | some dd => decide (cutoff now ≤ parseTime dd)
           | none => false)

/-- The query-level restriction applied when `includeAllDischarged` is false:
the embedded-resource filter keeps only matching admissions, and
`.not('admissions', 'is', null)` then drops patients left with no matching
admission (the PostgREST null-filtering inner-join pattern). -/
def restrictRows (parseTime : String → Int) (now : Int) (rows : List PatientRow) :
    List PatientRow :=
  (rows.map (fun p => { p with admissions := p.admissions.filter (keepAdmission parseTime now) }))
    |>.filter (fun p => !p.admissions.isEmpty)

/-- The mutable fields of the patient store. -/
structure StoreState where
  patients : List AggPatient
  selectedPatient : Option AggPatient
  loading : Bool
  error : Option String
deriving DecidableEq, Repr

/-- Action `fetchPatients` of `usePatientStore.ts` (lines 27–140) on the success
path: apply the default-window restriction unless `includeAllDischarged`,
aggregate every row, store the list, then reconcile the selection — the
selected patient is replaced by the freshly aggregated object when its id
is present, and left untouched otherwise (there is no clearing branch). -/
def fetchPatients (parseTime : String → Int) (now : Int) (includeAllDischarged : Bool)
    (rows : List PatientRow) (s : StoreState) : StoreState :=
  let s0 : StoreState := { s with loading := true, error := none }
  let fetched := if includeAllDischarged then rows else restrictRows parseTime now rows
  let patientsWithDetails := fetched.map (aggregatePatient parseTime)
  let s1 : StoreState := { s0 with patients := patientsWithDetails }
  let s2 : StoreState :=
    match s1.selectedPatient with
    | none => s1
    | some selectedPatient =>
      match patientsWithDetails.find? (fun p => p.id == selectedPatient.id) with
      | some updatedPatient => { s1 with selectedPatient := some updatedPatient }
      | none => s1
  { s2 with loading := false }

end IMD.PatientStore

namespace IMD

/-! ## Claims -/

/-! ### C2 — stay duration and long-stay threshold -/

/-- C2, as stated, fails: `differenceInDays` truncates toward zero while the
claim demands the floor.  With `now` at the epoch and the admission date
twelve hours later (a valid instant), the code returns `0` where the floor
of the difference is `-1`. -/
theorem c2_counterexample :
    calculateStayDuration 43200000 0 ≠ Int.fdiv (0 - 43200000) msPerDay := by
  decide

/-- C2 (amended): unconditionally, `isLongStay` holds iff the stay
duration is at least `LONG_STAY_THRESHOLD = 6`; and whenever the admission
date does not lie in the future of `now`, `calculateStayDuration` equals
the floored whole-day difference (in general it truncates toward zero). -/
theorem c2_stay_duration (d now : Int) :
    (isLongStay d now = true ↔ LONG_STAY_THRESHOLD ≤ calculateStayDuration d now) ∧
      (d ≤ now → calculateStayDuration d now = Int.fdiv (now - d) msPerDay) := by
  constructor
  · simp [isLongStay]
  · intro h
    have h1 : (0 : Int) ≤ now - d := by omega
    have h2 : (0 : Int) ≤ msPerDay := by decide
    unfold calculateStayDuration differenceInDays
    rw [Int.tdiv_eq_ediv h1 h2, Int.fdiv_eq_ediv _ h2]

/-- Witness for C2 at a concrete input: admission at the epoch, `now`
twelve days later, with the inner past-date hypothesis discharged. -/
theorem c2_stay_duration_witness :
    ((isLongStay 0 1036800000 = true ↔
        LONG_STAY_THRESHOLD ≤ calculateStayDuration 0 1036800000) ∧
      ((0 : Int) ≤ 1036800000 →
        calculateStayDuration 0 1036800000 = Int.fdiv (1036800000 - 0) msPerDay)) ∧
      calculateStayDuration 0 1036800000 = Int.fdiv (1036800000 - 0) msPerDay :=
  ⟨c2_stay_duration 0 1036800000, (c2_stay_duration 0 1036800000).2 (by decide)⟩

/-! ### C5 — discharge preconditions fail fast -/

/-- C5: with no selected roster entry or no authenticated user,
`processDischarge` stores a precondition error and rejects before any
backend write: the database is untouched and no write was applied. -/
theorem c5_preconditions (w : DischargeStore.WriteFlags) (currentUser : Option User)
    (now : String) (data : DischargeStore.DischargeData) (db : DischargeStore.DB)
    (s : DischargeStore.StoreState)
    (h : s.selectedPatient = none ∨ currentUser = none) :
    (DischargeStore.processDischarge w currentUser now data db s).db = db ∧
      (DischargeStore.processDischarge w currentUser now data db s).writes = [] ∧
      (DischargeStore.processDischarge w currentUser now data db s).thrown = true ∧
      ((DischargeStore.processDischarge w currentUser now data db s).state.error =
          some "No patient selected" ∨
        (DischargeStore.processDischarge w currentUser now data db s).state.error =
          some "No user logged in") := by
  rcases h with h | h
  · simp [DischargeStore.processDischarge, h]
  · subst h
    cases hs : s.selectedPatient <;>
      simp [DischargeStore.processDischarge, hs]

/-- Witness for C5: empty store, no user. -/
theorem c5_preconditions_witness :
    (({ activePatients := [], loading := false, error := none,
        selectedPatient := none } : DischargeStore.StoreState).selectedPatient = none ∨
      (none : Option User) = none) ∧
      ((DischargeStore.processDischarge
          ⟨false, false, ⟨false, false⟩⟩ none "t"
          ⟨"d", "regular", false, none, "n", "discharged"⟩
          ⟨[], [], []⟩
          { activePatients := [], loading := false, error := none,
            selectedPatient := none }).db = ⟨[], [], []⟩ ∧
        (DischargeStore.processDischarge
          ⟨false, false, ⟨false, false⟩⟩ none "t"
          ⟨"d", "regular", false, none, "n", "discharged"⟩
          ⟨[], [], []⟩
          { activePatients := [], loading := false, error := none,
            selectedPatient := none }).writes = [] ∧
        (DischargeStore.processDischarge
          ⟨false, false, ⟨false, false⟩⟩ none "t"
          ⟨"d", "regular", false, none, "n", "discharged"⟩
          ⟨[], [], []⟩
          { activePatients := [], loading := false, error := none,
            selectedPatient := none }).thrown = true ∧
        ((DischargeStore.processDischarge
            ⟨false, false, ⟨false, false⟩⟩ none "t"
            ⟨"d", "regular", false, none, "n", "discharged"⟩
            ⟨[], [], []⟩
            { activePatients := [], loading := false, error := none,
              selectedPatient := none }).state.error = some "No patient selected" ∨
          (DischargeStore.processDischarge
            ⟨false, false, ⟨false, false⟩⟩ none "t"
            ⟨"d", "regular", false, none, "n", "discharged"⟩
            ⟨[], [], []⟩
            { activePatients := [], loading := false, error := none,
              selectedPatient := none }).state.error = some "No user logged in")) :=
  ⟨Or.inl rfl,
    c5_preconditions ⟨false, false, ⟨false, false⟩⟩ none "t"
      ⟨"d", "regular", false, none, "n", "discharged"⟩ ⟨[], [], []⟩
      { activePatients := [], loading := false, error := none, selectedPatient := none }
      (Or.inl rfl)⟩

/-! ### Helper lemmas about the roster fetch -/

/-- On a successful fetch, the stored roster is `rosterOf db`. -/
theorem fetch_active_roster (f : DischargeStore.FetchFlags) (db : DischargeStore.DB)
    (s : DischargeStore.StoreState)
    (ha : f.admissionsFail = false) (hc : f.consultationsFail = false) :
    (DischargeStore.fetchActivePatients f db s).activePatients =
      DischargeStore.rosterOf db := by
  unfold DischargeStore.fetchActivePatients
  rw [ha, hc]
  rfl

/-- On a successful fetch with a selection whose id is found in the new
roster, the selection becomes the found entry. -/
theorem fetch_active_selected_found (f : DischargeStore.FetchFlags)
    (db : DischargeStore.DB) (s : DischargeStore.StoreState)
    (sel e : DischargeStore.ActivePatient)
    (ha : f.admissionsFail = false) (hc : f.consultationsFail = false)
    (hsel : s.selectedPatient = some sel)
    (hfind : (DischargeStore.rosterOf db).find? (fun p => p.id == sel.id) = some e) :
    (DischargeStore.fetchActivePatients f db s).selectedPatient = some e := by
  unfold DischargeStore.fetchActivePatients
  rw [ha, hc]
  simp only [Bool.false_eq_true, if_false, hsel, hfind]

/-- On a successful fetch with a selection whose id is absent from the new
roster, the selection is cleared. -/
theorem fetch_active_selected_absent (f : DischargeStore.FetchFlags)
    (db : DischargeStore.DB) (s : DischargeStore.StoreState)
    (sel : DischargeStore.ActivePatient)
    (ha : f.admissionsFail = false) (hc : f.consultationsFail = false)
    (hsel : s.selectedPatient = some sel)
    (hfind : (DischargeStore.rosterOf db).find? (fun p => p.id == sel.id) = none) :
    (DischargeStore.fetchActivePatients f db s).selectedPatient = none := by
  unfold DischargeStore.fetchActivePatients
  rw [ha, hc]
  simp only [Bool.false_eq_true, if_false, hsel, hfind]

/-! ### C7 — active-roster composition -/

/-- C7: a successful `fetchActivePatients` stores exactly the active
admissions (mapped, `isConsultation` false) followed by the active
consultations (mapped, `isConsultation` true, `shift_type = morning`,
`is_weekend = false`) with no re-sort; every stored entry has status
`active`, and — with distinct admission ids — no discharged admission's id
appears as an admission-backed entry. -/
theorem c7_roster_composition (f : DischargeStore.FetchFlags) (db : DischargeStore.DB)
    (s : DischargeStore.StoreState)
    (ha : f.admissionsFail = false) (hc : f.consultationsFail = false)
    (hids : (db.admissions.map (·.id)).Nodup) :
    (DischargeStore.fetchActivePatients f db s).activePatients =
        (db.admissions.filter (fun a => a.status == "active")).map
            DischargeStore.admissionToActive
          ++ (db.consultations.filter (fun c => c.status == "active")).map
            DischargeStore.consultationToActive ∧
      (∀ e ∈ (DischargeStore.fetchActivePatients f db s).activePatients,
        e.isConsultation = true → e.shift_type = "morning" ∧ e.is_weekend = false) ∧
      (∀ e ∈ (DischargeStore.fetchActivePatients f db s).activePatients,
        e.status = "active") ∧
      (∀ a ∈ db.admissions, a.status = "discharged" →
        ∀ e ∈ (DischargeStore.fetchActivePatients f db s).activePatients,
          e.isConsultation = false → e.id ≠ a.id) := by
  have hroster : (DischargeStore.fetchActivePatients f db s).activePatients =
      DischargeStore.rosterOf db := by
    unfold DischargeStore.fetchActivePatients
    rw [ha, hc]
    rfl
  refine ⟨by rw [hroster]; rfl, ?_, ?_, ?_⟩
  · intro e he hcons
    rw [hroster] at he
    rcases List.mem_append.mp he with h | h
    · rcases List.mem_map.mp h with ⟨a, _, rfl⟩
      simp [DischargeStore.admissionToActive] at hcons
    · rcases List.mem_map.mp h with ⟨c, _, rfl⟩
      exact ⟨rfl, rfl⟩
  · intro e he
    rw [hroster] at he
    rcases List.mem_append.mp he with h | h
    · rcases List.mem_map.mp h with ⟨a, ha', rfl⟩
      have := (List.mem_filter.mp ha').2
      simpa [DischargeStore.admissionToActive] using of_decide_eq_true this
    · rcases List.mem_map.mp h with ⟨c, _, rfl⟩
      rfl
  · intro a hamem hastat e he hecons heid
    rw [hroster] at he
    rcases List.mem_append.mp he with h | h
    · rcases List.mem_map.mp h with ⟨a', ha', rfl⟩
      have ha'mem := (List.mem_filter.mp ha').1
      have ha'stat : a'.status = "active" := of_decide_eq_true (List.mem_filter.mp ha').2
      have : a' = a :=
        List.inj_on_of_nodup_map hids ha'mem hamem
          (by simpa [DischargeStore.admissionToActive] using heid)
      rw [this, hastat] at ha'stat
      exact absurd ha'stat (by decide)
    · rcases List.mem_map.mp h with ⟨c, _, rfl⟩
      simp [DischargeStore.consultationToActive] at hecons

/-! ### C1 — admission discharge writes -/

/-- C1: discharging an admission-backed entry with a form payload (built by
`handleSubmit`, with the follow-up date required to be non-empty when
follow-up is enabled, as the form validation guarantees) applies exactly the
claimed admission update followed by a `Discharge Summary` note whose
content is the note text; consultations are untouched. -/
theorem c1_admission_discharge (w : DischargeStore.WriteFlags) (u : User) (now : String)
    (fd : DischargeStore.FormData) (db : DischargeStore.DB)
    (s : DischargeStore.StoreState) (sel : DischargeStore.ActivePatient)
    (hsel : s.selectedPatient = some sel)
    (hcons : sel.isConsultation = false)
    (hupd : w.updateFails = false)
    (hnote : w.noteFails = false)
    (hfu : fd.follow_up_required = true → fd.follow_up_date ≠ "") :
    ∀ r, r = DischargeStore.processDischarge w (some u) now
        (DischargeStore.mkDischargeData fd) db s →
      r.writes =
        [DischargeStore.WriteOp.updateAdmission sel.id
          { status := "discharged"
            discharge_date := fd.discharge_date
            discharge_type := fd.discharge_type
            follow_up_required := fd.follow_up_required
            follow_up_date :=
              if fd.follow_up_required then some fd.follow_up_date else none
            discharge_note := fd.discharge_note
            discharge_doctor_id := u.id },
         DischargeStore.WriteOp.insertNote
          { patient_id := sel.patient_id
            doctor_id := u.id
            note_type := "Discharge Summary"
            content := fd.discharge_note }] ∧
      r.db.notes = db.notes ++
        [{ patient_id := sel.patient_id
           doctor_id := u.id
           note_type := "Discharge Summary"
           content := fd.discharge_note }] ∧
      r.db.admissions = db.admissions.map (fun a =>
        if a.id = sel.id then
          { a with
            status := "discharged"
            discharge_date := some fd.discharge_date
            discharge_type := some fd.discharge_type
            follow_up_required := fd.follow_up_required
            follow_up_date :=
              if fd.follow_up_required then some fd.follow_up_date else none
            discharge_note := some fd.discharge_note
            discharge_doctor_id := some u.id }
        else a) ∧
      r.db.consultations = db.consultations := by
  intro r hr
  have hkey : IMD.jsOrOpt
      (if fd.follow_up_required = true then some fd.follow_up_date else none) none =
      if fd.follow_up_required = true then some fd.follow_up_date else none := by
    cases hq : fd.follow_up_required with
    | false => simp [jsOrOpt]
    | true => simp [jsOrOpt, hfu hq]
  subst hr
  refine ⟨?_, ?_, ?_, ?_⟩ <;>
    · simp only [DischargeStore.processDischarge, hsel, hcons, hupd, hnote,
        Bool.false_eq_true, if_false, DischargeStore.mkDischargeData,
        DischargeStore.addNote, DischargeStore.applyAdmissionUpdate, hkey]

/-! ### C4 — failure ordering and no rollback -/

/-- C4: if the status update fails, `processDischarge` stops before the note
append — nothing is written, the roster is not refetched and the selection
is not cleared; if the update succeeds and the note append fails, the
status change is kept (no compensating write), while the remaining steps
are still skipped. -/
theorem c4_failure_handling (w : DischargeStore.WriteFlags) (u : User) (now : String)
    (data : DischargeStore.DischargeData) (db : DischargeStore.DB)
    (s : DischargeStore.StoreState) (sel : DischargeStore.ActivePatient)
    (hsel : s.selectedPatient = some sel) :
    ∀ r, r = DischargeStore.processDischarge w (some u) now data db s →
      (w.updateFails = true →
        r.db = db ∧ r.writes = [] ∧ r.thrown = true ∧
          r.state.selectedPatient = some sel ∧
          r.state.activePatients = s.activePatients) ∧
      (w.updateFails = false → w.noteFails = true →
        r.db.notes = db.notes ∧ r.thrown = true ∧
          r.state.selectedPatient = some sel ∧
          r.state.activePatients = s.activePatients ∧
          (sel.isConsultation = false →
            ∀ a ∈ r.db.admissions, a.id = sel.id → a.status = "discharged") ∧
          (sel.isConsultation = true →
            ∀ c ∈ r.db.consultations, some c.id = sel.consultation_id →
              c.status = "completed")) := by
  intro r hr
  subst hr
  constructor
  · intro hu
    cases hic : sel.isConsultation <;>
      simp [DischargeStore.processDischarge, hsel, hic, hu]
  · intro hu hn
    cases hic : sel.isConsultation with
    | false =>
      refine ⟨?_, ?_, ?_, ?_, ?_, ?_⟩ <;>
        simp [DischargeStore.processDischarge, hsel, hic, hu, hn,
          DischargeStore.applyAdmissionUpdate]
      intro a _hmem hid
      by_cases h0 : a.id = sel.id
      · rw [if_pos h0]
      · rw [if_neg h0] at hid
        exact absurd hid h0
    | true =>
      refine ⟨?_, ?_, ?_, ?_, ?_, ?_⟩ <;>
        simp [DischargeStore.processDischarge, hsel, hic, hu, hn,
          DischargeStore.applyConsultationUpdate]
      intro c _hmem hid
      by_cases h0 : some c.id = sel.consultation_id
      · rw [if_pos h0]
      · rw [if_neg h0] at hid
        exact absurd hid h0

/-! ### C9 — refetch then unconditional selection clear -/

/-- C9: when both writes succeed, `processDischarge` re-fetches the active
roster (it equals `rosterOf` of the post-write database when the reads
succeed) and then clears the selected entry unconditionally — even when the
re-fetch fails, and regardless of what the refreshed roster contains. -/
theorem c9_refetch_then_clear (w : DischargeStore.WriteFlags) (u : User) (now : String)
    (data : DischargeStore.DischargeData) (db : DischargeStore.DB)
    (s : DischargeStore.StoreState) (sel : DischargeStore.ActivePatient)
    (hsel : s.selectedPatient = some sel)
    (hupd : w.updateFails = false)
    (hnote : w.noteFails = false) :
    ∀ r, r = DischargeStore.processDischarge w (some u) now data db s →
      r.state.selectedPatient = none ∧ r.thrown = false ∧
        (w.fetch.admissionsFail = false → w.fetch.consultationsFail = false →
          r.state.activePatients = DischargeStore.rosterOf r.db) := by
  intro r hr
  subst hr
  cases hic : sel.isConsultation with
  | false =>
    simp only [DischargeStore.processDischarge, hsel, hic, hupd, hnote,
      Bool.false_eq_true, if_false]
    exact ⟨trivial, trivial, fun ha hc => fetch_active_roster _ _ _ ha hc⟩
  | true =>
    simp only [DischargeStore.processDischarge, hsel, hic, hupd, hnote,
      Bool.false_eq_true, if_false, if_true]
    exact ⟨trivial, trivial, fun ha hc => fetch_active_roster _ _ _ ha hc⟩

/-! ### C10 — reconciliation matches by id alone -/

/-- C10: during a roster refresh with a consultation-backed selection of id
`i`, if the admission part of the fresh roster has an entry with id `i`
(its first such entry being `e`), the selection is replaced by that
admission-backed entry: matching is by the shared numeric id alone, so a
consultation id colliding with an admission id re-targets the selection. -/
theorem c10_reconciliation_by_id (f : DischargeStore.FetchFlags)
    (db : DischargeStore.DB) (s : DischargeStore.StoreState)
    (sel e : DischargeStore.ActivePatient)
    (ha : f.admissionsFail = false) (hc : f.consultationsFail = false)
    (hsel : s.selectedPatient = some sel)
    (hcons : sel.isConsultation = true)
    (hfind : ((db.admissions.filter (fun a => a.status == "active")).map
        DischargeStore.admissionToActive).find? (fun p => p.id == sel.id) = some e) :
    (DischargeStore.fetchActivePatients f db s).selectedPatient = some e ∧
      e.isConsultation = false := by
  have hmem := List.mem_of_find?_eq_some hfind
  rcases List.mem_map.mp hmem with ⟨a, _, rfl⟩
  refine ⟨?_, rfl⟩
  apply fetch_active_selected_found f db s sel _ ha hc hsel
  unfold DischargeStore.rosterOf
  rw [List.find?_append, hfind]
  rfl

/-! ### Concrete sample data for the witnesses -/

/-- A sample doctor row. -/
def doc1 : Doctor := ⟨10, "Dr A", "MC1", "doctor", "Internal Medicine"⟩

/-- A sample authenticated user. -/
def userA : User := ⟨7, "Dr A"⟩

/-- A sample active admission row (id 1). -/
def adm1 : DischargeStore.AdmissionRow :=
  { id := 1, patient_id := 100, admission_date := "2024-01-01"
    department := "Internal Medicine", diagnosis := "flu", status := "active"
    admitting_doctor_id := 10, shift_type := "morning", is_weekend := false
    patient := [⟨"A100", "Alice"⟩], admitting_doctor := [doc1]
    discharge_date := none, discharge_type := none, follow_up_required := false
    follow_up_date := none, discharge_note := none, discharge_doctor_id := none }

/-- A sample discharged admission row (id 2). -/
def adm2 : DischargeStore.AdmissionRow :=
  { adm1 with
    id := 2
    patient_id := 101
    admission_date := "2024-01-02"
    status := "discharged"
    discharge_date := some "2024-01-06" }

/-- A sample active consultation row (id 3). -/
def cons1 : DischargeStore.ConsultationRow :=
  { id := 3, patient_id := 102, mrn := "C300", patient_name := "Carol"
    created_at := "2024-01-05", consultation_specialty := "Neurology"
    reason := "review", doctor_id := some 11, doctor_name := some "Dr B"
    status := "active", completion_note := none, completed_by := none
    completed_at := none }

/-- A sample database. -/
def db1 : DischargeStore.DB := ⟨[adm1, adm2], [cons1], []⟩

/-- The roster entry for `adm1`, taken as the selected patient. -/
def selAdm : DischargeStore.ActivePatient := DischargeStore.admissionToActive adm1

/-- A sample store state with `selAdm` selected. -/
def st1 : DischargeStore.StoreState := ⟨[], false, none, some selAdm⟩

/-- Write flags with every backend call succeeding. -/
def okFlags : DischargeStore.WriteFlags := ⟨false, false, ⟨false, false⟩⟩

/-- A sample discharge form submission with follow-up enabled. -/
def fd1 : DischargeStore.FormData :=
  ⟨"2024-01-10", "regular", true, "2024-01-20", "stable"⟩

/-- The sample payload at the `DischargeData` level. -/
def data1 : DischargeStore.DischargeData :=
  ⟨"2024-01-10", "regular", true, some "2024-01-20", "stable", "discharged"⟩

/-! ### Witnesses for the discharge-store claims -/

/-- Witness for C1 on the sample data: the two writes are exactly the
claimed admission update and the `Discharge Summary` note. -/
theorem c1_admission_discharge_witness :
    st1.selectedPatient = some selAdm ∧ selAdm.isConsultation = false ∧
      okFlags.updateFails = false ∧ okFlags.noteFails = false ∧
      (fd1.follow_up_required = true → fd1.follow_up_date ≠ "") ∧
      (DischargeStore.processDischarge okFlags (some userA) "2024-01-10T12:00:00Z"
          (DischargeStore.mkDischargeData fd1) db1 st1).writes =
        [DischargeStore.WriteOp.updateAdmission selAdm.id
          { status := "discharged"
            discharge_date := fd1.discharge_date
            discharge_type := fd1.discharge_type
            follow_up_required := fd1.follow_up_required
            follow_up_date :=
              if fd1.follow_up_required then some fd1.follow_up_date else none
            discharge_note := fd1.discharge_note
            discharge_doctor_id := userA.id },
         DischargeStore.WriteOp.insertNote
          { patient_id := selAdm.patient_id
            doctor_id := userA.id
            note_type := "Discharge Summary"
            content := fd1.discharge_note }] :=
  ⟨rfl, rfl, rfl, rfl, by decide,
    (c1_admission_discharge okFlags userA "2024-01-10T12:00:00Z" fd1 db1 st1 selAdm
      rfl rfl rfl rfl (by decide) _ rfl).1⟩

/-- Witness for C4 on the sample data with a failing status update: nothing
is written and the remaining steps are skipped. -/
theorem c4_failure_handling_witness :
    st1.selectedPatient = some selAdm ∧
      ((DischargeStore.processDischarge ⟨true, false, ⟨false, false⟩⟩ (some userA)
          "t" data1 db1 st1).db = db1 ∧
        (DischargeStore.processDischarge ⟨true, false, ⟨false, false⟩⟩ (some userA)
          "t" data1 db1 st1).writes = [] ∧
        (DischargeStore.processDischarge ⟨true, false, ⟨false, false⟩⟩ (some userA)
          "t" data1 db1 st1).thrown = true ∧
        (DischargeStore.processDischarge ⟨true, false, ⟨false, false⟩⟩ (some userA)
          "t" data1 db1 st1).state.selectedPatient = some selAdm ∧
        (DischargeStore.processDischarge ⟨true, false, ⟨false, false⟩⟩ (some userA)
          "t" data1 db1 st1).state.activePatients = st1.activePatients) :=
  ⟨rfl,
    (c4_failure_handling ⟨true, false, ⟨false, false⟩⟩ userA "t" data1 db1 st1 selAdm
      rfl _ rfl).1 rfl⟩

/-- Witness for C7 on the sample data: the roster is the active admission
followed by the active consultation. -/
theorem c7_roster_composition_witness :
    (⟨false, false⟩ : DischargeStore.FetchFlags).admissionsFail = false ∧
      (⟨false, false⟩ : DischargeStore.FetchFlags).consultationsFail = false ∧
      (db1.admissions.map (·.id)).Nodup ∧
      (DischargeStore.fetchActivePatients ⟨false, false⟩ db1 st1).activePatients =
        (db1.admissions.filter (fun a => a.status == "active")).map
            DischargeStore.admissionToActive
          ++ (db1.consultations.filter (fun c => c.status == "active")).map
            DischargeStore.consultationToActive :=
  ⟨rfl, rfl, by decide,
    (c7_roster_composition ⟨false, false⟩ db1 st1 rfl rfl (by decide)).1⟩

/-- Witness for C9 on the sample data: after a fully successful discharge
the selection is cleared and the roster equals the re-derived roster. -/
theorem c9_refetch_then_clear_witness :
    st1.selectedPatient = some selAdm ∧
      okFlags.updateFails = false ∧ okFlags.noteFails = false ∧
      ((DischargeStore.processDischarge okFlags (some userA) "t" data1 db1
          st1).state.selectedPatient = none ∧
        (DischargeStore.processDischarge okFlags (some userA) "t" data1 db1
          st1).thrown = false ∧
        (okFlags.fetch.admissionsFail = false → okFlags.fetch.consultationsFail = false →
          (DischargeStore.processDischarge okFlags (some userA) "t" data1 db1
            st1).state.activePatients =
            DischargeStore.rosterOf
              (DischargeStore.processDischarge okFlags (some userA) "t" data1 db1
                st1).db)) :=
  ⟨rfl, rfl, rfl,
    c9_refetch_then_clear okFlags userA "t" data1 db1 st1 selAdm rfl rfl rfl _ rfl⟩

/-- A consultation row whose id collides with the admission id 1. -/
def consClash : DischargeStore.ConsultationRow :=
  { cons1 with id := 1, patient_id := 103 }

/-- A database containing both the admission and the clashing consultation. -/
def dbClash : DischargeStore.DB := ⟨[adm1], [consClash], []⟩

/-- A store state with the consultation-backed entry of id 1 selected. -/
def stClash : DischargeStore.StoreState :=
  ⟨[], false, none, some (DischargeStore.consultationToActive consClash)⟩

/-- Witness for C10 on the clashing sample: after a refresh the selection
has become the admission-backed entry of the same id. -/
theorem c10_reconciliation_by_id_witness :
    stClash.selectedPatient = some (DischargeStore.consultationToActive consClash) ∧
      (DischargeStore.consultationToActive consClash).isConsultation = true ∧
      ((dbClash.admissions.filter (fun a => a.status == "active")).map
          DischargeStore.admissionToActive).find?
        (fun p => p.id == (DischargeStore.consultationToActive consClash).id) =
        some (DischargeStore.admissionToActive adm1) ∧
      ((DischargeStore.fetchActivePatients ⟨false, false⟩ dbClash
          stClash).selectedPatient = some (DischargeStore.admissionToActive adm1) ∧
        (DischargeStore.admissionToActive adm1).isConsultation = false) :=
  ⟨rfl, rfl, by decide,
    c10_reconciliation_by_id ⟨false, false⟩ dbClash stClash
      (DischargeStore.consultationToActive consClash)
      (DischargeStore.admissionToActive adm1) rfl rfl rfl rfl (by decide)⟩

/-! ### C3 — selection reconciliation on refresh -/

/-- A constant time interpretation for concrete runs. -/
def c3time : String → Int := fun _ => 0

/-- A selected aggregated patient whose id (99) appears in no fetched row. -/
def c3selected : PatientStore.AggPatient :=
  { id := 99, mrn := "Z9", name := "Zed", date_of_birth := "1990-01-01"
    gender := "male", admissions := [], department := none, diagnosis := none
    admission_date := none, doctor_name := none }

/-- A patient-store state holding that selection. -/
def c3state : PatientStore.StoreState := ⟨[], some c3selected, false, none⟩

/-- C3, as stated, fails for `fetchPatients`: refreshing against an empty
row set (so the selected id is absent from the fresh aggregate list) leaves
the stale selection in place instead of clearing it to null. -/
theorem c3_counterexample :
    (PatientStore.fetchPatients c3time 0 true [] c3state).patients.find?
        (fun p => p.id == c3selected.id) = none ∧
      (PatientStore.fetchPatients c3time 0 true [] c3state).selectedPatient ≠ none := by
  decide

/-- C3 (amended): after a successful `fetchActivePatients`, an absent
selected id clears the selection and a present one replaces it with the
freshly built entry; after `fetchPatients`, a present id replaces the
selection with the freshly aggregated object, but an absent id leaves the
previous selection unchanged (it is not cleared). -/
theorem c3_selection_reconciliation (f : DischargeStore.FetchFlags)
    (db : DischargeStore.DB) (s : DischargeStore.StoreState)
    (sel : DischargeStore.ActivePatient)
    (ha : f.admissionsFail = false) (hc : f.consultationsFail = false)
    (hsel : s.selectedPatient = some sel)
    (pt : String → Int) (now : Int) (flag : Bool)
    (rows : List PatientStore.PatientRow) (sp : PatientStore.StoreState)
    (selP : PatientStore.AggPatient) (hselP : sp.selectedPatient = some selP) :
    ((DischargeStore.rosterOf db).find? (fun p => p.id == sel.id) = none →
        (DischargeStore.fetchActivePatients f db s).selectedPatient = none) ∧
      (∀ e, (DischargeStore.rosterOf db).find? (fun p => p.id == sel.id) = some e →
        (DischargeStore.fetchActivePatients f db s).selectedPatient = some e ∧
          e ∈ DischargeStore.rosterOf db) ∧
      (((if flag then rows else PatientStore.restrictRows pt now rows).map
            (PatientStore.aggregatePatient pt)).find? (fun p => p.id == selP.id) = none →
        (PatientStore.fetchPatients pt now flag rows sp).selectedPatient = some selP) ∧
      (∀ q, ((if flag then rows else PatientStore.restrictRows pt now rows).map
            (PatientStore.aggregatePatient pt)).find? (fun p => p.id == selP.id) = some q →
        (PatientStore.fetchPatients pt now flag rows sp).selectedPatient = some q ∧
          q ∈ (if flag then rows else PatientStore.restrictRows pt now rows).map
            (PatientStore.aggregatePatient pt)) := by
  refine ⟨?_, ?_, ?_, ?_⟩
  · intro hfind
    exact fetch_active_selected_absent f db s sel ha hc hsel hfind
  · intro e hfind
    exact ⟨fetch_active_selected_found f db s sel e ha hc hsel hfind,
      List.mem_of_find?_eq_some hfind⟩
  · intro hfind
    unfold PatientStore.fetchPatients
    simp only [hselP, hfind]
  · intro q hfind
    refine ⟨?_, List.mem_of_find?_eq_some hfind⟩
    unfold PatientStore.fetchPatients
    simp only [hselP, hfind]

/-- Witness for C3 on concrete data: the discharge store finds and replaces
the selection, and the patient store keeps a stale selection whose id is
absent. -/
theorem c3_selection_reconciliation_witness :
    (⟨false, false⟩ : DischargeStore.FetchFlags).admissionsFail = false ∧
      st1.selectedPatient = some selAdm ∧
      c3state.selectedPatient = some c3selected ∧
      (((DischargeStore.rosterOf db1).find? (fun p => p.id == selAdm.id) = none →
          (DischargeStore.fetchActivePatients ⟨false, false⟩ db1
            st1).selectedPatient = none) ∧
        (∀ e, (DischargeStore.rosterOf db1).find? (fun p => p.id == selAdm.id) = some e →
          (DischargeStore.fetchActivePatients ⟨false, false⟩ db1
              st1).selectedPatient = some e ∧
            e ∈ DischargeStore.rosterOf db1) ∧
        (((if true then ([] : List PatientStore.PatientRow)
              else PatientStore.restrictRows c3time 0 []).map
              (PatientStore.aggregatePatient c3time)).find?
            (fun p => p.id == c3selected.id) = none →
          (PatientStore.fetchPatients c3time 0 true [] c3state).selectedPatient =
            some c3selected) ∧
        (∀ q, ((if true then ([] : List PatientStore.PatientRow)
              else PatientStore.restrictRows c3time 0 []).map
              (PatientStore.aggregatePatient c3time)).find?
            (fun p => p.id == c3selected.id) = some q →
          (PatientStore.fetchPatients c3time 0 true [] c3state).selectedPatient =
              some q ∧
            q ∈ (if true then ([] : List PatientStore.PatientRow)
                else PatientStore.restrictRows c3time 0 []).map
              (PatientStore.aggregatePatient c3time))) :=
  ⟨rfl, rfl, rfl,
    c3_selection_reconciliation ⟨false, false⟩ db1 st1 selAdm rfl rfl rfl
      c3time 0 true [] c3state c3selected rfl⟩

/-! ### C6 — per-patient aggregation and derived fields -/

/-- A concrete time interpretation (string length, in ms) for closed runs. -/
def lenTime : String → Int := fun s => (s.length : Int)

/-- A discharged admission with a later date and a non-empty department. -/
def c6admA : PatientStore.AdmissionRow :=
  { id := 11, patient_id := 200, admitting_doctor_id := 10
    admission_date := "dd", discharge_date := none, department := "Neurology"
    diagnosis := "seizure", status := "discharged", visit_number := 1
    safety_type := none, shift_type := "morning", is_weekend := false
    admitting_doctor := [doc1], discharge_doctor := [] }

/-- An active admission with an earlier date and an empty department. -/
def c6admB : PatientStore.AdmissionRow :=
  { c6admA with id := 12, admission_date := "d", department := "", status := "active" }

/-- A patient row with both admissions. -/
def c6row : PatientStore.PatientRow :=
  ⟨200, "M1", "Mia", "1980-01-01", "female", [c6admA, c6admB]⟩

/-- C6, as stated, fails: with an active admission whose department is the
empty string, the JavaScript `||` fallback takes the most recent
admission's department instead of the active admission's. -/
theorem c6_counterexample :
    ((PatientStore.aggregatePatient lenTime c6row).admissions.find?
        (fun a => a.status == "active")).map (fun a => a.department) = some "" ∧
      (PatientStore.aggregatePatient lenTime c6row).department = some "Neurology" ∧
      (PatientStore.aggregatePatient lenTime c6row).department ≠
        ((PatientStore.aggregatePatient lenTime c6row).admissions.find?
          (fun a => a.status == "active")).map (fun a => a.department) := by
  decide

/-- C6 (amended): the aggregator's admission list is sorted by admission
date descending (a permutation of the input admissions); when no active
admission exists the convenience fields come from the most recent admission
(index 0), and when an active admission exists each convenience field
equals the active admission's value provided that value is truthy (a
non-empty string; for `doctor_name`, a present doctor with a non-empty
name) — otherwise JavaScript `||` falls back to the latest admission. -/
theorem c6_aggregation (pt : String → Int) (p : PatientStore.PatientRow) :
    List.Sorted (fun a b : PatientStore.AggAdmission =>
        pt b.admission_date ≤ pt a.admission_date)
      (PatientStore.aggregatePatient pt p).admissions ∧
      (PatientStore.aggregatePatient pt p).admissions.Perm
        (p.admissions.map PatientStore.aggregateAdmission) ∧
      ((PatientStore.aggregatePatient pt p).admissions.find?
          (fun a => a.status == "active") = none →
        (PatientStore.aggregatePatient pt p).department =
            (PatientStore.aggregatePatient pt p).admissions.head?.map (·.department) ∧
          (PatientStore.aggregatePatient pt p).diagnosis =
            (PatientStore.aggregatePatient pt p).admissions.head?.map (·.diagnosis) ∧
          (PatientStore.aggregatePatient pt p).admission_date =
            (PatientStore.aggregatePatient pt p).admissions.head?.map (·.admission_date) ∧
          (PatientStore.aggregatePatient pt p).doctor_name =
            ((PatientStore.aggregatePatient pt p).admissions.head?.bind
              (·.admitting_doctor)).map (·.name)) ∧
      (∀ a, (PatientStore.aggregatePatient pt p).admissions.find?
          (fun x => x.status == "active") = some a →
        (a.department ≠ "" →
          (PatientStore.aggregatePatient pt p).department = some a.department) ∧
        (a.diagnosis ≠ "" →
          (PatientStore.aggregatePatient pt p).diagnosis = some a.diagnosis) ∧
        (a.admission_date ≠ "" →
          (PatientStore.aggregatePatient pt p).admission_date = some a.admission_date) ∧
        (∀ d, a.admitting_doctor = some d → d.name ≠ "" →
          (PatientStore.aggregatePatient pt p).doctor_name = some d.name) ∧
        (a.department = "" →
          (PatientStore.aggregatePatient pt p).department =
            (PatientStore.aggregatePatient pt p).admissions.head?.map (·.department)) ∧
        (a.diagnosis = "" →
          (PatientStore.aggregatePatient pt p).diagnosis =
            (PatientStore.aggregatePatient pt p).admissions.head?.map (·.diagnosis)) ∧
        (a.admission_date = "" →
          (PatientStore.aggregatePatient pt p).admission_date =
            (PatientStore.aggregatePatient pt p).admissions.head?.map
              (·.admission_date)) ∧
        (a.admitting_doctor = none →
          (PatientStore.aggregatePatient pt p).doctor_name =
            ((PatientStore.aggregatePatient pt p).admissions.head?.bind
              (·.admitting_doctor)).map (·.name)) ∧
        (∀ d, a.admitting_doctor = some d → d.name = "" →
          (PatientStore.aggregatePatient pt p).doctor_name =
            ((PatientStore.aggregatePatient pt p).admissions.head?.bind
              (·.admitting_doctor)).map (·.name))) := by
  have hadm : (PatientStore.aggregatePatient pt p).admissions =
      (PatientStore.sortAdmissionsDesc pt p.admissions).map
        PatientStore.aggregateAdmission := rfl
  refine ⟨?_, ?_, ?_, ?_⟩
  · rw [hadm]
    have hs : List.Sorted (fun a b : PatientStore.AdmissionRow =>
        pt b.admission_date ≤ pt a.admission_date)
        (PatientStore.sortAdmissionsDesc pt p.admissions) := by
      haveI : IsTotal PatientStore.AdmissionRow
          (fun a b => pt b.admission_date ≤ pt a.admission_date) :=
        ⟨fun a b => le_total (pt b.admission_date) (pt a.admission_date)⟩
      haveI : IsTrans PatientStore.AdmissionRow
          (fun a b => pt b.admission_date ≤ pt a.admission_date) :=
        ⟨fun _ _ _ h1 h2 => le_trans h2 h1⟩
      exact List.sorted_insertionSort _ _
    exact hs.map PatientStore.aggregateAdmission (fun a b h => h)
  · rw [hadm]
    exact (List.perm_insertionSort _ _).map _
  · intro hfind
    simp only [PatientStore.aggregatePatient] at hfind ⊢
    rw [hfind]
    exact ⟨rfl, rfl, rfl, rfl⟩
  · intro a hfind
    simp only [PatientStore.aggregatePatient] at hfind ⊢
    rw [hfind]
    refine ⟨?_, ?_, ?_, ?_, ?_, ?_, ?_, ?_, ?_⟩
    · intro hne
      simp [jsOrOpt, hne]
    · intro hne
      simp [jsOrOpt, hne]
    · intro hne
      simp [jsOrOpt, hne]
    · intro d hd hne
      simp [jsOrOpt, hd, hne]
    · intro hz
      simp [jsOrOpt, hz]
    · intro hz
      simp [jsOrOpt, hz]
    · intro hz
      simp [jsOrOpt, hz]
    · intro hz
      simp [jsOrOpt, hz]
    · intro d hd hz
      simp [jsOrOpt, hd, hz]

/-- Witness for C6 on the sample row: active admission present with truthy
diagnosis and date (empty department exercised by the counterexample). -/
theorem c6_aggregation_witness :
    List.Sorted (fun a b : PatientStore.AggAdmission =>
        lenTime b.admission_date ≤ lenTime a.admission_date)
      (PatientStore.aggregatePatient lenTime c6row).admissions ∧
      (PatientStore.aggregatePatient lenTime c6row).admissions.Perm
        (c6row.admissions.map PatientStore.aggregateAdmission) :=
  ⟨(c6_aggregation lenTime c6row).1, (c6_aggregation lenTime c6row).2.1⟩

/-! ### C8 — default 18-hour discharge window -/

/-- The stored patient list of `fetchPatients`, independent of the
selection-reconciliation branch taken. -/
theorem fetchPatients_patients (pt : String → Int) (now : Int) (flag : Bool)
    (rows : List PatientStore.PatientRow) (s : PatientStore.StoreState) :
    (PatientStore.fetchPatients pt now flag rows s).patients =
      (if flag then rows else PatientStore.restrictRows pt now rows).map
        (PatientStore.aggregatePatient pt) := by
  unfold PatientStore.fetchPatients
  cases hs : s.selectedPatient with
  | none => rfl
  | some sel =>
    cases hf : ((if flag then rows else PatientStore.restrictRows pt now rows).map
        (PatientStore.aggregatePatient pt)).find? (fun p => p.id == sel.id) <;>
      simp only [hs, hf]

/-- The admission predicate of the default window, in propositional form. -/
theorem keepAdmission_iff (pt : String → Int) (now : Int)
    (a : PatientStore.AdmissionRow) :
    PatientStore.keepAdmission pt now a = true ↔
      (a.status = "active" ∨ (a.status = "discharged" ∧
        ∃ dd, a.discharge_date = some dd ∧ PatientStore.cutoff now ≤ pt dd)) := by
  unfold PatientStore.keepAdmission
  cases hd : a.discharge_date <;>
    simp [hd, Bool.or_eq_true, Bool.and_eq_true, beq_iff_eq, decide_eq_true_iff]

/-- C8: with the flag false, the stored result contains a patient of a
given row's id exactly when that row has an admission that is active or
discharged within the trailing 18 hours (row ids assumed distinct); with
the flag true every row is aggregated with no restriction. -/
theorem c8_discharge_window (pt : String → Int) (now : Int)
    (rows : List PatientStore.PatientRow) (s : PatientStore.StoreState)
    (hids : (rows.map (·.id)).Nodup) :
    (∀ row ∈ rows,
        ((∃ q ∈ (PatientStore.fetchPatients pt now false rows s).patients,
            q.id = row.id) ↔
          ∃ a ∈ row.admissions, a.status = "active" ∨
            (a.status = "discharged" ∧
              ∃ dd, a.discharge_date = some dd ∧ PatientStore.cutoff now ≤ pt dd))) ∧
      (PatientStore.fetchPatients pt now true rows s).patients =
        rows.map (PatientStore.aggregatePatient pt) := by
  constructor
  · intro row hrow
    rw [fetchPatients_patients]
    simp only [if_neg (by decide : ¬ (false = true))]
    constructor
    · rintro ⟨q, hq, hqid⟩
      rcases List.mem_map.mp hq with ⟨ptrimmed, hmem, rfl⟩
      unfold PatientStore.restrictRows at hmem
      rcases List.mem_filter.mp hmem with ⟨hmem2, hne⟩
      rcases List.mem_map.mp hmem2 with ⟨row0, hrow0, rfl⟩
      have hid0 : row0.id = row.id := hqid
      have : row0 = row := List.inj_on_of_nodup_map hids hrow0 hrow hid0
      subst this
      have hnonnil : row0.admissions.filter (PatientStore.keepAdmission pt now) ≠ [] := by
        intro hnil
        simp [hnil] at hne
      rcases List.exists_mem_of_ne_nil _ hnonnil with ⟨a, hamem⟩
      rcases List.mem_filter.mp hamem with ⟨hamem0, hkeep⟩
      exact ⟨a, hamem0, (keepAdmission_iff pt now a).mp hkeep⟩
    · rintro ⟨a, hamem, hP⟩
      have hkeep : PatientStore.keepAdmission pt now a = true :=
        (keepAdmission_iff pt now a).mpr hP
      refine ⟨PatientStore.aggregatePatient pt
        { row with admissions := row.admissions.filter (PatientStore.keepAdmission pt now) },
        ?_, rfl⟩
      apply List.mem_map_of_mem
      unfold PatientStore.restrictRows
      apply List.mem_filter.mpr
      refine ⟨List.mem_map_of_mem _ hrow, ?_⟩
      have : a ∈ row.admissions.filter (PatientStore.keepAdmission pt now) :=
        List.mem_filter.mpr ⟨hamem, hkeep⟩
      simp [List.isEmpty_iff, List.ne_nil_of_mem this]
  · rw [fetchPatients_patients]
    rfl

/-- A patient row with an active admission (kept by the default window). -/
def c8rowActive : PatientStore.PatientRow :=
  ⟨300, "P3", "Pia", "1970-01-01", "male",
    [{ c6admA with id := 31, patient_id := 300, status := "active" }]⟩

/-- A patient row whose only admission was discharged outside the window. -/
def c8rowOld : PatientStore.PatientRow :=
  ⟨301, "P4", "Pol", "1970-01-01", "male",
    [{ c6admA with
       id := 32
       patient_id := 301
       status := "discharged"
       discharge_date := some "x" }]⟩

/-- Witness for C8 on the two sample rows at `now` = 20 h past the epoch
(cutoff 2 h): only the row with the active admission is retained by the
default fetch, and the flag-true fetch aggregates both rows. -/
theorem c8_discharge_window_witness :
    ([c8rowActive, c8rowOld].map (·.id)).Nodup ∧
      ((∀ row ∈ [c8rowActive, c8rowOld],
          ((∃ q ∈ (PatientStore.fetchPatients lenTime 72000000 false
              [c8rowActive, c8rowOld] c3state).patients, q.id = row.id) ↔
            ∃ a ∈ row.admissions, a.status = "active" ∨
              (a.status = "discharged" ∧
                ∃ dd, a.discharge_date = some dd ∧
                  PatientStore.cutoff 72000000 ≤ lenTime dd))) ∧
        (PatientStore.fetchPatients lenTime 72000000 true
            [c8rowActive, c8rowOld] c3state).patients =
          [c8rowActive, c8rowOld].map (PatientStore.aggregatePatient lenTime)) :=
  ⟨by decide,
    c8_discharge_window lenTime 72000000 [c8rowActive, c8rowOld] c3state (by decide)⟩

end IMD
